import Mathlib

/-!
Shallow embedding of the software-rasterizer pixel pipeline of
GPU/Software/DrawPixel.cpp: the generic per-pixel routine DrawSinglePixel,
its helper test functions, the pixel JIT specialization cache, and the
blend-state analyzer ComputePixelBlendState.

Machine integers are modelled as Nat (unsigned) and Int (signed), with
explicit masking (mod 2^16 or mod 2^32) where the C++ types truncate.
The framebuffer and depth buffer are modelled as linear Nat-indexed cells
addressed by x + y * stride, matching the row-major layout the accessors
use.
-/

set_option maxHeartbeats 1000000
set_option maxRecDepth 8192

/-- Framebuffer pixel encodings (GEBufferFormat). -/
inductive GEBufferFormat where
  | F565
  | F5551
  | F4444
  | F8888
deriving DecidableEq

/-- Comparison functions (GEComparison). -/
inductive GEComparison where
  | NEVER
  | ALWAYS
  | EQUAL
  | NOTEQUAL
  | LESS
  | LEQUAL
  | GREATER
  | GEQUAL
deriving DecidableEq

/-- Stencil operations (GEStencilOp). -/
inductive GEStencilOp where
  | KEEP
  | ZERO
  | REPLACE
  | INVERT
  | INCR
  | DECR
deriving DecidableEq

/-- Logic operations (GELogicOp), 16 boolean combinations. -/
inductive GELogicOp where
  | CLEAR
  | AND
  | AND_REVERSE
  | COPY
  | AND_INVERTED
  | NOOP
  | XOR
  | OR
  | NOR
  | EQUIV
  | INVERTED
  | OR_REVERSE
  | COPY_INVERTED
  | OR_INVERTED
  | NAND
  | SET
deriving DecidableEq

/-- Blend equations (GEBlendMode). -/
inductive GEBlendMode where
  | MUL_AND_ADD
  | MUL_AND_SUBTRACT
  | MUL_AND_SUBTRACT_REVERSE
  | MIN
  | MAX
  | ABSDIFF
deriving DecidableEq

/-- Blend factors as classified by the pixel func id (PixelBlendFactor). -/
inductive PixelBlendFactor where
  | OTHERCOLOR
  | INVOTHERCOLOR
  | SRCALPHA
  | INVSRCALPHA
  | DSTALPHA
  | INVDSTALPHA
  | DOUBLESRCALPHA
  | DOUBLEINVSRCALPHA
  | DOUBLEDSTALPHA
  | DOUBLEINVDSTALPHA
  | FIX
  | ZERO
  | ONE
deriving DecidableEq

/-- The derived cached block carried by a PixelFuncID (PixelFuncID::cached):
precomputed masks, reference values, strides, dither matrix, fog color.
A pure function of the primary key fields per the data model. -/
structure PixelCached where
  minz : Nat
  maxz : Nat
  alphaTestMask : Nat
  fogColor : Nat
  colorTestFunc : GEComparison
  colorTestMask : Nat
  colorTestRef : Nat
  colorWriteMask : Nat
  stencilTestMask : Nat
  stencilRef : Nat
  framebufStride : Nat
  depthbufStride : Nat
  ditherMatrix : List Int
  logicOp : GELogicOp
deriving DecidableEq

/-- The pipeline configuration key (PixelFuncID): one complete pixel
pipeline configuration. Bitfield accessors of the C++ struct (such as
AlphaTestFunc, SFail, DepthClear) are modelled as plain fields. -/
structure PixelFuncID where
  clearMode : Bool
  fbFormat : GEBufferFormat
  applyDepthRange : Bool
  alphaTestFunc : GEComparison
  alphaTestRef : Nat
  hasAlphaTestMask : Bool
  applyFog : Bool
  colorTest : Bool
  applyColorWriteMask : Bool
  stencilTest : Bool
  hasStencilTestMask : Bool
  stencilTestRef : Nat
  stencilTestFunc : GEComparison
  sFail : GEStencilOp
  zFail : GEStencilOp
  zPass : GEStencilOp
  depthTestFunc : GEComparison
  depthClear : Bool
  colorClear : Bool
  stencilClear : Bool
  depthWrite : Bool
  alphaBlend : Bool
  dithering : Bool
  applyLogicOp : Bool
  alphaBlendEq : GEBlendMode
  alphaBlendSrc : PixelBlendFactor
  alphaBlendDst : PixelBlendFactor
  cached : PixelCached
deriving DecidableEq

/-- Integer 3-vector (Vec3 of int). -/
structure Vec3i where
  r : Int
  g : Int
  b : Int
deriving DecidableEq

/-- Integer 4-vector (Vec4 of int). -/
structure Vec4i where
  r : Int
  g : Int
  b : Int
  a : Int
deriving DecidableEq

/-- The external framebuffer and depth buffer, shared mutable surfaces.
Cells are linear, addressed by x + y * stride. -/
structure DrawState where
  fb : Nat → Nat
  depth : Nat → Nat

/-- Clamp one component to the byte range, as Vec4int Clamp(0, 255). -/
def clamp255 (v : Int) : Int := max 0 (min 255 v)

/-- Componentwise clamp of the incoming color (prim_color clamp). -/
def clampVec4 (c : Vec4i) : Vec4i :=
  ⟨clamp255 c.r, clamp255 c.g, clamp255 c.b, clamp255 c.a⟩

/-- Clamp an int component to [0, 255] and convert to Nat. -/
def clampByte (v : Int) : Nat := (max 0 (min 255 v)).toNat

/-- Vec3int ToRGB: clamp each component to a byte and pack r, g, b into the
low 24 bits. The source comment notes ToRGB always automatically clamps. -/
def vec3ToRGB (v : Vec3i) : Nat :=
  clampByte v.r ||| (clampByte v.g <<< 8) ||| (clampByte v.b <<< 16)

/-- Vec3int FromRGB: unpack the low three bytes of a packed color. -/
def vec3FromRGB (c : Nat) : Vec3i :=
  ⟨(c &&& 255 : Nat), ((c >>> 8) &&& 255 : Nat), ((c >>> 16) &&& 255 : Nat)⟩

/-- Vec4int FromRGBA: unpack four bytes of a packed color. -/
def vec4FromRGBA (c : Nat) : Vec4i :=
  ⟨(c &&& 255 : Nat), ((c >>> 8) &&& 255 : Nat), ((c >>> 16) &&& 255 : Nat),
    ((c >>> 24) &&& 255 : Nat)⟩

/-- C++ conversion of a signed int to u16 (reduction mod 2^16). -/
def intToU16 (z : Int) : Nat := (z % 65536).toNat

/-- Bitwise complement on a 32-bit value. -/
def compl32 (m : Nat) : Nat := m ^^^ 4294967295

/-- Bitwise complement on a 16-bit value. -/
def compl16 (m : Nat) : Nat := m ^^^ 65535

/-- Modelled from the spec: Convert4To8 of Common/Data/Convert/ColorConv.h
(not under src/), nibble replication per the format round-trip property. -/
def Convert4To8 (v : Nat) : Nat := (v <<< 4) ||| v

/-- Modelled from the spec: Convert5To8 of ColorConv.h (not under src/),
5-bit channel expansion by bit replication. -/
def Convert5To8 (v : Nat) : Nat := (v <<< 3) ||| (v >>> 2)

/-- Modelled from the spec: Convert6To8 of ColorConv.h (not under src/),
6-bit channel expansion by bit replication. -/
def Convert6To8 (v : Nat) : Nat := (v <<< 2) ||| (v >>> 4)

/-- Modelled from the spec: RGB565ToRGBA8888 of ColorConv.h (not under
src/); the 565 layout has 5-bit red, 6-bit green, 5-bit blue and no
alpha, expanded with full alpha. -/
def RGB565ToRGBA8888 (px : Nat) : Nat :=
  Convert5To8 (px &&& 31) ||| (Convert6To8 ((px >>> 5) &&& 63) <<< 8) |||
    (Convert5To8 ((px >>> 11) &&& 31) <<< 16) ||| (255 <<< 24)

/-- Modelled from the spec: RGBA5551ToRGBA8888 of ColorConv.h (not under
src/); 5-bit channels plus a 1-bit alpha stored in the top bit. -/
def RGBA5551ToRGBA8888 (px : Nat) : Nat :=
  Convert5To8 (px &&& 31) ||| (Convert5To8 ((px >>> 5) &&& 31) <<< 8) |||
    (Convert5To8 ((px >>> 10) &&& 31) <<< 16) |||
    (if px &&& 32768 ≠ 0 then 255 <<< 24 else 0)

/-- Modelled from the spec: RGBA4444ToRGBA8888 of ColorConv.h (not under
src/); 4-bit nibbles per channel, expanded by nibble replication. -/
def RGBA4444ToRGBA8888 (px : Nat) : Nat :=
  Convert4To8 (px &&& 15) ||| (Convert4To8 ((px >>> 4) &&& 15) <<< 8) |||
    (Convert4To8 ((px >>> 8) &&& 15) <<< 16) |||
    (Convert4To8 ((px >>> 12) &&& 15) <<< 24)

/-- Modelled from the spec: RGBA8888ToRGB565 of ColorConv.h (not under
src/); channel truncation to the 565 layout, alpha dropped. -/
def RGBA8888ToRGB565 (c : Nat) : Nat :=
  ((c &&& 255) >>> 3) ||| ((((c >>> 8) &&& 255) >>> 2) <<< 5) |||
    ((((c >>> 16) &&& 255) >>> 3) <<< 11)

/-- Modelled from the spec: RGBA8888ToRGBA5551 of ColorConv.h (not under
src/); channel truncation, alpha reduced to the top bit. -/
def RGBA8888ToRGBA5551 (c : Nat) : Nat :=
  ((c &&& 255) >>> 3) ||| ((((c >>> 8) &&& 255) >>> 3) <<< 5) |||
    ((((c >>> 16) &&& 255) >>> 3) <<< 10) ||| ((((c >>> 24) &&& 255) >>> 7) <<< 15)

/-- Modelled from the spec: RGBA8888ToRGBA4444 of ColorConv.h (not under
src/); channel truncation to nibbles. -/
def RGBA8888ToRGBA4444 (c : Nat) : Nat :=
  ((c &&& 255) >>> 4) ||| ((((c >>> 8) &&& 255) >>> 4) <<< 4) |||
    ((((c >>> 16) &&& 255) >>> 4) <<< 8) ||| ((((c >>> 24) &&& 255) >>> 4) <<< 12)

/-- fb.Get16: read a 16-bit framebuffer cell. -/
def fbGet16 (st : DrawState) (stride x y : Nat) : Nat :=
  st.fb (x + y * stride) % 65536

/-- fb.Set16: write a 16-bit framebuffer cell. -/
def fbSet16 (st : DrawState) (stride x y v : Nat) : DrawState :=
  { st with fb := fun i => if i = x + y * stride then v % 65536 else st.fb i }

/-- fb.Get32: read a 32-bit framebuffer cell. -/
def fbGet32 (st : DrawState) (stride x y : Nat) : Nat :=
  st.fb (x + y * stride) % 4294967296

/-- fb.Set32: write a 32-bit framebuffer cell. -/
def fbSet32 (st : DrawState) (stride x y v : Nat) : DrawState :=
  { st with fb := fun i => if i = x + y * stride then v % 4294967296 else st.fb i }

/-- GetPixelDepth: read a 16-bit depth cell. -/
def getPixelDepth (x y stride : Nat) (st : DrawState) : Nat :=
  st.depth (x + y * stride) % 65536

/-- SetPixelDepth: write a 16-bit depth cell. -/
def setPixelDepth (x y stride v : Nat) (st : DrawState) : DrawState :=
  { st with depth := fun i => if i = x + y * stride then v % 65536 else st.depth i }

/-- GetPixelStencil: format 565 has no stencil and always reads 0, 5551
reads the top bit widened to 0 or 255, 4444 widens the top nibble, 8888
reads the top byte. -/
def getPixelStencil (fmt : GEBufferFormat) (fbStride x y : Nat) (st : DrawState) : Nat :=
  match fmt with
  | .F565 => 0
  | .F5551 => if fbGet16 st fbStride x y &&& 32768 ≠ 0 then 255 else 0
  | .F4444 => Convert4To8 (fbGet16 st fbStride x y >>> 12)
  | .F8888 => fbGet32 st fbStride x y >>> 24

/-- SetPixelStencil: write back the stencil bits of the framebuffer pixel,
honoring the target write mask; 565 does nothing. -/
def setPixelStencil (fmt : GEBufferFormat) (fbStride targetWriteMask x y value : Nat)
    (st : DrawState) : DrawState :=
  match fmt with
  | .F565 => st
  | .F5551 =>
    if targetWriteMask &&& 32768 = 0 then
      let pixel := (fbGet16 st fbStride x y &&& 32767) ||| ((value &&& 128) <<< 8)
      fbSet16 st fbStride x y pixel
    else st
  | .F4444 =>
    let write_mask := (targetWriteMask ||| 4095) % 65536
    let pixel := (fbGet16 st fbStride x y &&& write_mask) |||
      ((value <<< 8) &&& compl16 write_mask)
    fbSet16 st fbStride x y pixel
  | .F8888 =>
    let write_mask := targetWriteMask ||| 16777215
    let pixel := (fbGet32 st fbStride x y &&& write_mask) |||
      ((value <<< 24) &&& compl32 write_mask)
    fbSet32 st fbStride x y pixel

/-- GetPixelColor: read a framebuffer pixel expanded to packed RGBA8888;
for 565 the alpha is zeroed for blending purposes. -/
def getPixelColor (fmt : GEBufferFormat) (fbStride x y : Nat) (st : DrawState) : Nat :=
  match fmt with
  | .F565 => RGB565ToRGBA8888 (fbGet16 st fbStride x y) &&& 16777215
  | .F5551 => RGBA5551ToRGBA8888 (fbGet16 st fbStride x y)
  | .F4444 => RGBA4444ToRGBA8888 (fbGet16 st fbStride x y)
  | .F8888 => fbGet32 st fbStride x y

/-- SetPixelColor: pack the new value into the destination encoding,
merging unmasked new bits with masked-through old bits. -/
def setPixelColor (fmt : GEBufferFormat) (fbStride x y value old_value targetWriteMask : Nat)
    (st : DrawState) : DrawState :=
  match fmt with
  | .F565 =>
    let v := RGBA8888ToRGB565 value
    let v := if targetWriteMask ≠ 0 then
        (v &&& compl32 targetWriteMask) ||| (RGBA8888ToRGB565 old_value &&& targetWriteMask)
      else v
    fbSet16 st fbStride x y v
  | .F5551 =>
    let v := RGBA8888ToRGBA5551 value
    let v := if targetWriteMask ≠ 0 then
        (v &&& compl32 targetWriteMask) ||| (RGBA8888ToRGBA5551 old_value &&& targetWriteMask)
      else v
    fbSet16 st fbStride x y v
  | .F4444 =>
    let v := RGBA8888ToRGBA4444 value
    let v := if targetWriteMask ≠ 0 then
        (v &&& compl32 targetWriteMask) ||| (RGBA8888ToRGBA4444 old_value &&& targetWriteMask)
      else v
    fbSet16 st fbStride x y v
  | .F8888 =>
    fbSet32 st fbStride x y ((value &&& compl32 targetWriteMask) ||| (old_value &&& targetWriteMask))

/-- AlphaTestPassed: compare the (optionally masked) alpha against the
reference under the configured compare function. -/
def alphaTestPassed (id : PixelFuncID) (alpha0 : Nat) : Bool :=
  let alpha := if id.hasAlphaTestMask then alpha0 &&& id.cached.alphaTestMask else alpha0
  match id.alphaTestFunc with
  | .NEVER => false
  | .ALWAYS => true
  | .EQUAL => decide (alpha = id.alphaTestRef)
  | .NOTEQUAL => decide (alpha ≠ id.alphaTestRef)
  | .LESS => decide (alpha < id.alphaTestRef)
  | .LEQUAL => decide (alpha ≤ id.alphaTestRef)
  | .GREATER => decide (alpha > id.alphaTestRef)
  | .GEQUAL => decide (alpha ≥ id.alphaTestRef)

/-- ColorTestPassed: compare the masked RGB (no alpha) against the cached
reference; only NEVER, ALWAYS, EQUAL, NOTEQUAL are distinguished and every
other compare function falls to the default and passes. -/
def colorTestPassed (id : PixelFuncID) (color : Vec3i) : Bool :=
  let c := vec3ToRGB color &&& id.cached.colorTestMask
  let ref := id.cached.colorTestRef
  match id.cached.colorTestFunc with
  | .NEVER => false
  | .ALWAYS => true
  | .EQUAL => decide (c = ref)
  | .NOTEQUAL => decide (c ≠ ref)
  | _ => true

/-- StencilTestPassed: compare the reference against the (optionally
masked) stencil; note the reference stands on the left of the ordering
comparisons, as in the source. -/
def stencilTestPassed (id : PixelFuncID) (stencil0 : Nat) : Bool :=
  let stencil := if id.hasStencilTestMask then stencil0 &&& id.cached.stencilTestMask else stencil0
  let ref := id.stencilTestRef
  match id.stencilTestFunc with
  | .NEVER => false
  | .ALWAYS => true
  | .EQUAL => decide (ref = stencil)
  | .NOTEQUAL => decide (ref ≠ stencil)
  | .LESS => decide (ref < stencil)
  | .LEQUAL => decide (ref ≤ stencil)
  | .GREATER => decide (ref > stencil)
  | .GEQUAL => decide (ref ≥ stencil)

/-- ApplyStencilOp: apply a stencil operation to the old stencil value,
saturating at format-specific bounds; INVERT complements the byte. -/
def applyStencilOp (fmt : GEBufferFormat) (stencilReplace : Nat) (op : GEStencilOp)
    (old_stencil : Nat) : Nat :=
  match op with
  | .KEEP => old_stencil
  | .ZERO => 0
  | .REPLACE => stencilReplace
  | .INVERT => 255 - old_stencil
  | .INCR =>
    match fmt with
    | .F8888 => if old_stencil ≠ 255 then old_stencil + 1 else old_stencil
    | .F5551 => 255
    | .F4444 => if old_stencil < 240 then old_stencil + 16 else old_stencil
    | .F565 => old_stencil
  | .DECR =>
    match fmt with
    | .F4444 => if 16 ≤ old_stencil then old_stencil - 16 else old_stencil
    | .F5551 => 0
    | _ => if old_stencil ≠ 0 then old_stencil - 1 else old_stencil

/-- DepthTestPassed: compare the incoming z (already reduced to u16)
against the stored depth value under the compare function. -/
def depthTestPassed (func : GEComparison) (x y stride : Nat) (z : Nat)
    (st : DrawState) : Bool :=
  let reference_z := getPixelDepth x y stride st
  match func with
  | .NEVER => false
  | .ALWAYS => true
  | .EQUAL => decide (z = reference_z)
  | .NOTEQUAL => decide (z ≠ reference_z)
  | .LESS => decide (z < reference_z)
  | .LEQUAL => decide (z ≤ reference_z)
  | .GREATER => decide (z > reference_z)
  | .GEQUAL => decide (z ≥ reference_z)

/-- ApplyLogicOp: combine old and new packed colors under one of the 16
boolean operations; every operation preserves the high (alpha or stencil)
byte of the new color. -/
def applyLogicOp (op : GELogicOp) (old_color new_color : Nat) : Nat :=
  match op with
  | .CLEAR => new_color &&& 4278190080
  | .AND => new_color &&& (old_color ||| 4278190080)
  | .AND_REVERSE => new_color &&& (compl32 old_color ||| 4278190080)
  | .COPY => new_color
  | .AND_INVERTED => (compl32 new_color &&& (old_color &&& 16777215)) ||| (new_color &&& 4278190080)
  | .NOOP => (old_color &&& 16777215) ||| (new_color &&& 4278190080)
  | .XOR => new_color ^^^ (old_color &&& 16777215)
  | .OR => new_color ||| (old_color &&& 16777215)
  | .NOR => (compl32 (new_color ||| old_color) &&& 16777215) ||| (new_color &&& 4278190080)
  | .EQUIV => (compl32 (new_color ^^^ old_color) &&& 16777215) ||| (new_color &&& 4278190080)
  | .INVERTED => (compl32 old_color &&& 16777215) ||| (new_color &&& 4278190080)
  | .OR_REVERSE => new_color ||| (compl32 old_color &&& 16777215)
  | .COPY_INVERTED => (compl32 new_color &&& 16777215) ||| (new_color &&& 4278190080)
  | .OR_INVERTED => ((compl32 new_color ||| old_color) &&& 16777215) ||| (new_color &&& 4278190080)
  | .NAND => (compl32 (new_color &&& old_color) &&& 16777215) ||| (new_color &&& 4278190080)
  | .SET => new_color ||| 16777215

/-- The type of a single-pixel routine (SingleFunc), taking x, y, z, fog,
the incoming color and the buffer state. -/
abbrev SingleFn := Nat → Nat → Int → Int → Vec4i → DrawState → DrawState

/-- The type of AlphaBlendingResult, external to DrawPixel.cpp: computes
the blended RGB from the configuration, source color and destination
color. Kept as an explicit parameter of the pipeline. -/
abbrev BlendFn := PixelFuncID → Vec4i → Vec4i → Vec3i

/-- The dither offset for a pixel: cached.ditherMatrix[(y & 3) * 4 + (x & 3)]. -/
def ditherAt (id : PixelFuncID) (x y : Nat) : Int :=
  id.cached.ditherMatrix.getD ((y % 4) * 4 + (x % 4)) 0

/-- The fog stage: if fog is enabled and not in clear mode, blend RGB
toward the cached fog color by fog over 255 with truncating division;
alpha is unaffected. -/
def fogStage (clearMode : Bool) (id : PixelFuncID) (fog : Int) (prim : Vec4i) : Vec4i :=
  if id.applyFog = true ∧ ¬clearMode = true then
    let fc := vec3FromRGB id.cached.fogColor
    ⟨Int.tdiv (prim.r * fog + fc.r * (255 - fog)) 255,
     Int.tdiv (prim.g * fog + fc.g * (255 - fog)) 255,
     Int.tdiv (prim.b * fog + fc.b * (255 - fog)) 255,
     prim.a⟩
  else prim

/-- Depth write, color combine (blend, dither, logic op, clear-mode
channel gating) and final writeback: DrawSinglePixel from the depth write
at line 452 to the end. -/
def dspDepthWriteColor (clearMode : Bool) (fmt : GEBufferFormat) (blend : BlendFn)
    (id : PixelFuncID) (x y : Nat) (z : Int) (prim : Vec4i) (stencil targetWriteMask : Nat)
    (st : DrawState) : DrawState :=
  let st1 := if id.depthWrite = true ∧ ¬clearMode = true then
      setPixelDepth x y id.cached.depthbufStride (intToU16 z) st
    else st
  let old_color := getPixelColor fmt id.cached.framebufStride x y st1
  let new_color :=
    if id.alphaBlend = true ∧ ¬clearMode = true then
      let dst := vec4FromRGBA old_color
      let blended := blend id prim dst
      let blended := if id.dithering = true then
          ⟨blended.r + ditherAt id x y, blended.g + ditherAt id x y, blended.b + ditherAt id x y⟩
        else blended
      vec3ToRGB blended ||| (stencil <<< 24)
    else
      let prim2 := if id.dithering = true then
          ⟨prim.r + ditherAt id x y, prim.g + ditherAt id x y, prim.b + ditherAt id x y, prim.a⟩
        else prim
      vec3ToRGB ⟨prim2.r, prim2.g, prim2.b⟩ ||| (stencil <<< 24)
  let new_color := if id.applyLogicOp = true ∧ ¬clearMode = true then
      applyLogicOp id.cached.logicOp old_color new_color
    else new_color
  let new_color := if clearMode = true ∧ ¬id.colorClear = true then
      (new_color &&& 4278190080) ||| (old_color &&& 16777215)
    else new_color
  let new_color := if clearMode = true ∧ ¬id.stencilClear = true then
      (new_color &&& 16777215) ||| (old_color &&& 4278190080)
    else new_color
  setPixelColor fmt id.cached.framebufStride x y new_color old_color targetWriteMask st1

/-- Stencil acquisition, clear-mode depth write, stencil and depth tests:
DrawSinglePixel from line 424 onward. In clear mode the clamped incoming
alpha is the stencil; otherwise the stencil is read from the framebuffer. -/
def dspStencilDepthWrite (clearMode : Bool) (fmt : GEBufferFormat) (blend : BlendFn)
    (id : PixelFuncID) (x y : Nat) (z fog : Int) (prim : Vec4i) (st : DrawState) : DrawState :=
  let targetWriteMask := if id.applyColorWriteMask = true then id.cached.colorWriteMask else 0
  let stencil0 : Nat := if clearMode = true then prim.a.toNat
    else getPixelStencil fmt id.cached.framebufStride x y st
  if clearMode = true then
    let st1 := if id.depthClear = true then
        setPixelDepth x y id.cached.depthbufStride (intToU16 z) st
      else st
    dspDepthWriteColor clearMode fmt blend id x y z prim stencil0 targetWriteMask st1
  else if id.stencilTest = true then
    let stencilReplace := if id.hasStencilTestMask = true then id.cached.stencilRef
      else id.stencilTestRef
    if ¬stencilTestPassed id stencil0 = true then
      setPixelStencil fmt id.cached.framebufStride targetWriteMask x y
        (applyStencilOp fmt stencilReplace id.sFail stencil0) st
    else if id.depthTestFunc ≠ .ALWAYS ∧
        ¬depthTestPassed id.depthTestFunc x y id.cached.depthbufStride (intToU16 z) st = true then
      setPixelStencil fmt id.cached.framebufStride targetWriteMask x y
        (applyStencilOp fmt stencilReplace id.zFail stencil0) st
    else
      dspDepthWriteColor clearMode fmt blend id x y z prim
        (applyStencilOp fmt stencilReplace id.zPass stencil0) targetWriteMask st
  else
    if id.depthTestFunc ≠ .ALWAYS ∧
        ¬depthTestPassed id.depthTestFunc x y id.cached.depthbufStride (intToU16 z) st = true then
      st
    else
      dspDepthWriteColor clearMode fmt blend id x y z prim stencil0 targetWriteMask st

/-- The color test point of DrawSinglePixel (lines 420 to 422): if the
color test is enabled and not in clear mode and the test fails, reject;
otherwise continue to the stencil and depth stages. -/
def dspColorTestOn (clearMode : Bool) (fmt : GEBufferFormat) (blend : BlendFn)
    (id : PixelFuncID) (x y : Nat) (z fog : Int) (prim : Vec4i) (st : DrawState) : DrawState :=
  if id.colorTest = true ∧ ¬clearMode = true ∧
      colorTestPassed id ⟨prim.r, prim.g, prim.b⟩ = false then st
  else dspStencilDepthWrite clearMode fmt blend id x y z fog prim st

/-- DrawSinglePixel after the depth-range clamp: alpha test, fog blend,
color test, then the remaining stages. -/
def dspAfterDepthRange (clearMode : Bool) (fmt : GEBufferFormat) (blend : BlendFn)
    (id : PixelFuncID) (x y : Nat) (z fog : Int) (prim : Vec4i) (st : DrawState) : DrawState :=
  if id.alphaTestFunc ≠ .ALWAYS ∧ ¬clearMode = true ∧
      alphaTestPassed id prim.a.toNat = false then st
  else dspColorTestOn clearMode fmt blend id x y z fog (fogStage clearMode id fog prim) st

/-- DrawSinglePixel, the generic pixel pipeline: clamp the incoming
color, apply the depth-range clamp (which the source applies regardless
of clear mode), then the ordered stages with early exit. -/
def drawSinglePixel (clearMode : Bool) (fmt : GEBufferFormat) (blend : BlendFn)
    (id : PixelFuncID) (x y : Nat) (z fog : Int) (colorIn : Vec4i) (st : DrawState) : DrawState :=
  let prim := clampVec4 colorIn
  if id.applyDepthRange = true ∧
      (z < (id.cached.minz : Int) ∨ z > (id.cached.maxz : Int)) then st
  else dspAfterDepthRange clearMode fmt blend id x y z fog prim st

/-- PixelJitCache::GenericSingle: select the DrawSinglePixel template
instance by the clear-mode flag and framebuffer format of the key. Every
branch of the source switch returns a valid routine; the trailing
assert-and-null is unreachable for the four formats. -/
def genericSingle (blend : BlendFn) (id : PixelFuncID) : Option SingleFn :=
  if id.clearMode = true then
    some (match id.fbFormat with
      | .F565 => drawSinglePixel true .F565 blend id
      | .F5551 => drawSinglePixel true .F5551 blend id
      | .F4444 => drawSinglePixel true .F4444 blend id
      | .F8888 => drawSinglePixel true .F8888 blend id)
  else
    some (match id.fbFormat with
      | .F565 => drawSinglePixel false .F565 blend id
      | .F5551 => drawSinglePixel false .F5551 blend id
      | .F4444 => drawSinglePixel false .F4444 blend id
      | .F8888 => drawSinglePixel false .F8888 blend id)

/-- Modelled from the spec: the behavior of the routine emitted by
CompileSingle (the native code generator, not under src/). Per the spec,
compilation emits a routine equivalent in observable behavior to the
generic pixel pipeline for that exact configuration. -/
def specializedSingle (blend : BlendFn) (id : PixelFuncID) : SingleFn :=
  drawSinglePixel id.clearMode id.fbFormat blend id

/-- GetSingleFunc: return the jitted routine when the cache has one,
otherwise fall back to GenericSingle. The none branch of genericSingle is
unreachable (the source asserts); it is kept total with an identity
routine. -/
def getSingleFunc (blend : BlendFn) (jitted : Option SingleFn) (id : PixelFuncID) : SingleFn :=
  match jitted with
  | some f => f
  | none =>
    match genericSingle blend id with
    | some f => f
    | none => fun _ _ _ _ _ st => st

/-- The blend classification produced by ComputePixelBlendState
(PixelBlendState); all flags start false. -/
structure PixelBlendState where
  usesFactors : Bool := false
  usesDstAlpha : Bool := false
  dstColorAsFactor : Bool := false
  srcColorAsFactor : Bool := false
  dstFactorIsInverse : Bool := false
deriving DecidableEq

/-- ComputePixelBlendState: classify the blend configuration. The three
multiply equations use factors; MIN, MAX and ABSDIFF do not. The incoming
state is the default all-false record (modelled from the spec: the C++
struct initializes every flag to false and the function is a pure
classification). -/
def computePixelBlendState (id : PixelFuncID) : PixelBlendState :=
  let s0 : PixelBlendState := {}
  let s1 := match id.alphaBlendEq with
    | .MUL_AND_ADD => { s0 with usesFactors := true }
    | .MUL_AND_SUBTRACT => { s0 with usesFactors := true }
    | .MUL_AND_SUBTRACT_REVERSE => { s0 with usesFactors := true }
    | .MIN => s0
    | .MAX => s0
    | .ABSDIFF => s0
  if s1.usesFactors = true then
    let s2 := match id.alphaBlendSrc with
      | .DSTALPHA => { s1 with usesDstAlpha := true }
      | .INVDSTALPHA => { s1 with usesDstAlpha := true }
      | .DOUBLEDSTALPHA => { s1 with usesDstAlpha := true }
      | .DOUBLEINVDSTALPHA => { s1 with usesDstAlpha := true }
      | .OTHERCOLOR => { s1 with dstColorAsFactor := true }
      | .INVOTHERCOLOR => { s1 with dstColorAsFactor := true }
      | .SRCALPHA => { s1 with srcColorAsFactor := true }
      | .INVSRCALPHA => { s1 with srcColorAsFactor := true }
      | .DOUBLESRCALPHA => { s1 with srcColorAsFactor := true }
      | .DOUBLEINVSRCALPHA => { s1 with srcColorAsFactor := true }
      | _ => s1
    let s3 := match id.alphaBlendDst with
      | .INVSRCALPHA =>
        { s2 with dstFactorIsInverse := decide (id.alphaBlendSrc = PixelBlendFactor.SRCALPHA),
                  srcColorAsFactor := true }
      | .DOUBLEINVSRCALPHA =>
        { s2 with dstFactorIsInverse := decide (id.alphaBlendSrc = PixelBlendFactor.DOUBLESRCALPHA),
                  srcColorAsFactor := true }
      | .DSTALPHA => { s2 with usesDstAlpha := true }
      | .INVDSTALPHA =>
        { s2 with dstFactorIsInverse := decide (id.alphaBlendSrc = PixelBlendFactor.DSTALPHA),
                  usesDstAlpha := true }
      | .DOUBLEDSTALPHA => { s2 with usesDstAlpha := true }
      | .DOUBLEINVDSTALPHA =>
        { s2 with dstFactorIsInverse := decide (id.alphaBlendSrc = PixelBlendFactor.DOUBLEDSTALPHA),
                  usesDstAlpha := true }
      | .OTHERCOLOR => { s2 with srcColorAsFactor := true }
      | .INVOTHERCOLOR => { s2 with srcColorAsFactor := true }
      | .SRCALPHA => { s2 with srcColorAsFactor := true }
      | .DOUBLESRCALPHA => { s2 with srcColorAsFactor := true }
      | _ => s2
    { s3 with dstColorAsFactor := s3.dstColorAsFactor || s3.usesDstAlpha }
  else s1

/-- The JIT cache state (PixelJitCache plus its CodeBlock): the routine
map, the address map, the code-buffer write cursor and remaining space,
and a log of CompileSingle invocations for counting. Routine pointers are
modelled as code-buffer offsets. -/
structure JitState where
  cache : List (PixelFuncID × Nat)
  addresses : List (PixelFuncID × Nat)
  cursor : Nat
  spaceLeft : Nat
  compiles : List PixelFuncID

/-- The code buffer capacity: 1024 * 64 * 4 bytes. -/
def bufferCapacity : Nat := 262144

/-- Map lookup on an association list, first match wins. -/
def cacheLookup (id : PixelFuncID) : List (PixelFuncID × Nat) → Option Nat
  | [] => none
  | (k, v) :: rest => if k = id then some v else cacheLookup id rest

/-- PixelJitCache::Clear: reset the code buffer (rewinding the cursor to
the start and restoring the full capacity) and empty both the routine map
and the address map. The compile log is bookkeeping of this model, not
cache state. -/
def clearJit (st : JitState) : JitState :=
  { cache := [], addresses := [], cursor := 0, spaceLeft := bufferCapacity,
    compiles := st.compiles }

/-- Number of CompileSingle invocations recorded for one key. -/
def countCompiles (id : PixelFuncID) : List PixelFuncID → Nat
  | [] => 0
  | k :: rest => (if k = id then 1 else 0) + countCompiles id rest

/-- PixelJitCache::GetSingle. On hit, return the cached routine. On miss,
clear everything first when fewer than 65536 bytes remain; then, when the
jit is enabled for this build and configuration (en), record the current
code pointer in the address map, compile, record the routine, and return
it; otherwise return none. CompileSingle is modelled from the spec (its
emitter is not under src/): it returns the routine entry at the current
write cursor and advances the cursor by the emitted size sz id. -/
def getSingle (en : Bool) (sz : PixelFuncID → Nat) (id : PixelFuncID)
    (st : JitState) : Option Nat × JitState :=
  match cacheLookup id st.cache with
  | some f => (some f, st)
  | none =>
    let st1 := if st.spaceLeft < 65536 then clearJit st else st
    if en then
      let ptr := st1.cursor
      (some ptr,
        { cache := (id, ptr) :: st1.cache,
          addresses := (id, ptr) :: st1.addresses,
          cursor := st1.cursor + sz id,
          spaceLeft := st1.spaceLeft - sz id,
          compiles := id :: st1.compiles })
    else (none, st1)

/-- Invariant of the cache state: routine pointers in the map are
pairwise distinct and all lie strictly below the write cursor. -/
def JitInv (st : JitState) : Prop :=
  List.Pairwise (fun a b => a.2 ≠ b.2) st.cache ∧ ∀ e ∈ st.cache, e.2 < st.cursor

instance (st : JitState) : Decidable (JitInv st) := by
  unfold JitInv; infer_instance

/-- A concrete blend function used to instantiate witnesses. -/
def blend0 : BlendFn := fun _ src _ => ⟨src.r, src.g, src.b⟩

/-- A concrete cached block for witnesses. -/
def sampleCached : PixelCached :=
  { minz := 0, maxz := 65535, alphaTestMask := 255, fogColor := 0,
    colorTestFunc := .ALWAYS, colorTestMask := 16777215, colorTestRef := 0,
    colorWriteMask := 0, stencilTestMask := 255, stencilRef := 0,
    framebufStride := 512, depthbufStride := 512,
    ditherMatrix := [0, 0, 0, 0, 0, 0, 0, 0, 0, 0, 0, 0, 0, 0, 0, 0],
    logicOp := .COPY }

/-- A concrete permissive configuration for witnesses: non-clear 8888,
every test disabled. -/
def sampleId : PixelFuncID :=
  { clearMode := false, fbFormat := .F8888, applyDepthRange := false,
    alphaTestFunc := .ALWAYS, alphaTestRef := 0, hasAlphaTestMask := false,
    applyFog := false, colorTest := false, applyColorWriteMask := false,
    stencilTest := false, hasStencilTestMask := false, stencilTestRef := 0,
    stencilTestFunc := .ALWAYS, sFail := .KEEP, zFail := .KEEP, zPass := .KEEP,
    depthTestFunc := .ALWAYS, depthClear := false, colorClear := false,
    stencilClear := false, depthWrite := false, alphaBlend := false,
    dithering := false, applyLogicOp := false, alphaBlendEq := .MUL_AND_ADD,
    alphaBlendSrc := .SRCALPHA, alphaBlendDst := .INVSRCALPHA,
    cached := sampleCached }

/-- A concrete incoming color for witnesses. -/
def colorA : Vec4i := ⟨10, 20, 30, 40⟩

/-- A concrete buffer state for witnesses. -/
def stA : DrawState := ⟨fun _ => 0, fun _ => 0⟩

/-- Byte complement as subtraction agrees with xor against 255. -/
theorem sub255_eq_xor : ∀ s, s < 256 → 255 - s = Nat.xor s 255 := by decide

/-- Claim C4: ApplyStencilOp saturates rather than wraps at
format-specific bounds: for format 4444, INCR on any stencil value at or
above 0xF0 returns it unchanged and DECR on any value below 0x10 returns
it unchanged, otherwise stepping by 0x10; for format 5551, INCR returns
0xFF and DECR returns 0 directly; for format 8888, INCR on 0xFF and DECR
on 0x00 return the value unchanged; INVERT returns the bitwise complement
of the old stencil for every format. -/
theorem applyStencilOp_saturation (r s : Nat) (hs : s ≤ 255) :
    (240 ≤ s → applyStencilOp .F4444 r .INCR s = s)
    ∧ (s < 240 → applyStencilOp .F4444 r .INCR s = s + 16)
    ∧ (s < 16 → applyStencilOp .F4444 r .DECR s = s)
    ∧ (16 ≤ s → applyStencilOp .F4444 r .DECR s = s - 16)
    ∧ applyStencilOp .F5551 r .INCR s = 255
    ∧ applyStencilOp .F5551 r .DECR s = 0
    ∧ applyStencilOp .F8888 r .INCR 255 = 255
    ∧ applyStencilOp .F8888 r .DECR 0 = 0
    ∧ (∀ fmt, applyStencilOp fmt r .INVERT s = Nat.xor s 255) := by
  refine ⟨?_, ?_, ?_, ?_, rfl, rfl, rfl, rfl, ?_⟩
  · intro h
    simp only [applyStencilOp]
    rw [if_neg (by omega)]
  · intro h
    simp only [applyStencilOp]
    rw [if_pos h]
  · intro h
    simp only [applyStencilOp]
    rw [if_neg (by omega)]
  · intro h
    simp only [applyStencilOp]
    rw [if_pos h]
  · intro fmt
    simp only [applyStencilOp]
    exact sub255_eq_xor s (by omega)

/-- Witness for C4 at r = 7, s = 240. -/
theorem applyStencilOp_saturation_witness :
    (240 ≤ 240 → applyStencilOp .F4444 7 .INCR 240 = 240)
    ∧ (240 < 240 → applyStencilOp .F4444 7 .INCR 240 = 240 + 16)
    ∧ (240 < 16 → applyStencilOp .F4444 7 .DECR 240 = 240)
    ∧ (16 ≤ 240 → applyStencilOp .F4444 7 .DECR 240 = 240 - 16)
    ∧ applyStencilOp .F5551 7 .INCR 240 = 255
    ∧ applyStencilOp .F5551 7 .DECR 240 = 0
    ∧ applyStencilOp .F8888 7 .INCR 255 = 255
    ∧ applyStencilOp .F8888 7 .DECR 0 = 0
    ∧ (∀ fmt, applyStencilOp fmt 7 .INVERT 240 = Nat.xor 240 255) :=
  applyStencilOp_saturation 7 240 (by decide)

/-- Claim C9: ComputePixelBlendState is a pure function of the
configuration, and for the reduction equations MIN, MAX and ABSDIFF it
leaves usesFactors false and sets none of the factor-input flags,
regardless of the configured source and destination factors. -/
theorem computePixelBlendState_reduction (id : PixelFuncID)
    (h : id.alphaBlendEq = GEBlendMode.MIN ∨ id.alphaBlendEq = GEBlendMode.MAX ∨
      id.alphaBlendEq = GEBlendMode.ABSDIFF) :
    computePixelBlendState id =
      { usesFactors := false, usesDstAlpha := false, dstColorAsFactor := false,
        srcColorAsFactor := false, dstFactorIsInverse := false } := by
  rcases h with h | h | h <;> simp [computePixelBlendState, h]

/-- Witness for C9 on a MIN-equation configuration. -/
theorem computePixelBlendState_reduction_witness :
    computePixelBlendState { sampleId with alphaBlendEq := .MIN } =
      { usesFactors := false, usesDstAlpha := false, dstColorAsFactor := false,
        srcColorAsFactor := false, dstFactorIsInverse := false } :=
  computePixelBlendState_reduction _ (Or.inl rfl)

/-- Claim C10: every PixelBlendState produced by ComputePixelBlendState
satisfies the invariant that usesDstAlpha implies dstColorAsFactor. -/
theorem computePixelBlendState_dstAlpha_dstColor (id : PixelFuncID)
    (h : (computePixelBlendState id).usesDstAlpha = true) :
    (computePixelBlendState id).dstColorAsFactor = true := by
  simp only [computePixelBlendState] at h ⊢
  cases heq : id.alphaBlendEq <;> simp only [heq] at h ⊢ <;> simp_all [Bool.or_true]

/-- Witness for C10 on a configuration whose source factor is DSTALPHA. -/
theorem computePixelBlendState_dstAlpha_dstColor_witness :
    (computePixelBlendState
      { sampleId with
        alphaBlendEq := .MUL_AND_ADD,
        alphaBlendSrc := .DSTALPHA,
        alphaBlendDst := .FIX }).dstColorAsFactor = true :=
  computePixelBlendState_dstAlpha_dstColor _ (by decide)

/-- Claim C1: for every configuration and every in-bounds input, the
specialized routine returned by the cache, when one is available,
produces framebuffer and depth-buffer contents identical to the generic
pipeline DrawSinglePixel for the same configuration. The behavior of the
compiled routine is the spec-modelled specializedSingle, since the
native code generator is not part of the sources here. -/
theorem specialized_matches_generic (blend : BlendFn) (id : PixelFuncID)
    (jitted : Option SingleFn) (hjit : jitted = some (specializedSingle blend id))
    (x y : Nat) (z fog : Int) (colorIn : Vec4i) (st : DrawState)
    (hz : 0 ≤ z ∧ z ≤ 65535) (hfog : 0 ≤ fog ∧ fog ≤ 255) :
    getSingleFunc blend jitted id x y z fog colorIn st =
      drawSinglePixel id.clearMode id.fbFormat blend id x y z fog colorIn st := by
  subst hjit
  rfl

/-- Witness for C1 at a concrete configuration and input. -/
theorem specialized_matches_generic_witness :
    getSingleFunc blend0 (some (specializedSingle blend0 sampleId)) sampleId
        3 4 100 0 colorA stA =
      drawSinglePixel sampleId.clearMode sampleId.fbFormat blend0 sampleId
        3 4 100 0 colorA stA :=
  specialized_matches_generic blend0 sampleId _ rfl 3 4 100 0 colorA stA
    (by decide) (by decide)

/-- Claim C8: whenever the specialization cache returns absent,
GetSingleFunc returns the generic routine selected by the clear-mode
flag and framebuffer format of the key, and this generic routine exists
(is not null) for every format in both clear and non-clear mode. -/
theorem genericSingle_total_fallback (blend : BlendFn) (id : PixelFuncID) :
    ∃ f, genericSingle blend id = some f ∧ getSingleFunc blend none id = f ∧
      f = drawSinglePixel id.clearMode id.fbFormat blend id := by
  cases hc : id.clearMode <;> cases hf : id.fbFormat <;>
    refine ⟨_, ?_, ?_, rfl⟩ <;> simp [genericSingle, getSingleFunc, hc, hf]

/-- A clear-mode configuration with the depth-range test enabled and a
depth clear requested, used to exhibit the clear-mode depth-range
rejection. -/
def idC2 : PixelFuncID :=
  { sampleId with
    clearMode := true,
    applyDepthRange := true,
    depthClear := true,
    cached := { sampleCached with minz := 10, maxz := 100 } }

/-- A buffer state whose depth cells hold 5, used for C2. -/
def stC2 : DrawState := ⟨fun _ => 0, fun _ => 5⟩

/-- Counterexample to claim C2 as stated: in clear mode, with the
depth-range test enabled and z = 0 below minz = 10, the pipeline rejects
the pixel (the state is returned unchanged, although the requested depth
clear would have written depth 0 over the stored 5, as the run with the
depth-range test disabled shows). The claim says that in clear mode an
enabled depth-range test with out-of-range z never causes rejection. -/
theorem depthRange_clearMode_rejects :
    idC2.clearMode = true ∧ idC2.applyDepthRange = true ∧
    ((0 : Int) < (idC2.cached.minz : Int)) ∧
    drawSinglePixel true .F8888 blend0 idC2 0 0 0 0 colorA stC2 = stC2 ∧
    (drawSinglePixel true .F8888 blend0 { idC2 with applyDepthRange := false }
        0 0 0 0 colorA stC2).depth 0 ≠ stC2.depth 0 :=
  ⟨rfl, rfl, by decide, rfl, by decide⟩

/-- Claim C2 amended: the depth-range clamp stage rejects the pixel with
no writes if and only if the test is enabled and z is outside
[minz, maxz], regardless of clear mode (the source applies the clamp in
clear mode too); when it does not reject, execution continues with the
alpha-test stage on the clamped color. -/
theorem depthRange_reject_iff (cm : Bool) (fmt : GEBufferFormat) (blend : BlendFn)
    (id : PixelFuncID) (x y : Nat) (z fog : Int) (colorIn : Vec4i) (st : DrawState) :
    (id.applyDepthRange = true →
      (z < (id.cached.minz : Int) ∨ z > (id.cached.maxz : Int)) →
      drawSinglePixel cm fmt blend id x y z fog colorIn st = st)
    ∧ (¬(id.applyDepthRange = true ∧
        (z < (id.cached.minz : Int) ∨ z > (id.cached.maxz : Int))) →
      drawSinglePixel cm fmt blend id x y z fog colorIn st =
        dspAfterDepthRange cm fmt blend id x y z fog (clampVec4 colorIn) st) := by
  constructor
  · intro h1 h2
    simp only [drawSinglePixel]
    rw [if_pos ⟨h1, h2⟩]
  · intro h
    simp only [drawSinglePixel]
    rw [if_neg h]

/-- Witness for the amended C2, exercising both directions: rejection at
z = 0 below minz = 10 in clear mode, and fall-through at z = 50. -/
theorem depthRange_reject_iff_witness :
    (idC2.applyDepthRange = true →
      ((0 : Int) < (idC2.cached.minz : Int) ∨ (0 : Int) > (idC2.cached.maxz : Int)) →
      drawSinglePixel true .F8888 blend0 idC2 0 0 0 0 colorA stC2 = stC2)
    ∧ drawSinglePixel true .F8888 blend0 idC2 0 0 50 0 colorA stC2 =
        dspAfterDepthRange true .F8888 blend0 idC2 0 0 50 0 (clampVec4 colorA) stC2 :=
  ⟨(depthRange_reject_iff true .F8888 blend0 idC2 0 0 0 0 colorA stC2).1,
   (depthRange_reject_iff true .F8888 blend0 idC2 0 0 50 0 colorA stC2).2 (by decide)⟩

/-- A non-clear configuration with the color test enabled under the
NEVER compare function. -/
def idC3 : PixelFuncID :=
  { sampleId with
    colorTest := true,
    cached := { sampleCached with colorTestFunc := .NEVER } }

/-- A zero-filled buffer state used for C3. -/
def stC3 : DrawState := ⟨fun _ => 0, fun _ => 0⟩

/-- Counterexample to claim C3 as stated: with the color test enabled,
not in clear mode and compare function NEVER, the pipeline rejects the
pixel (state unchanged), whereas the claim says every compare op other
than EQUAL and NOTEQUAL, including NEVER, always passes. The same run
with compare function ALWAYS writes the framebuffer cell. -/
theorem colorTest_never_rejects :
    idC3.colorTest = true ∧ idC3.clearMode = false ∧
    idC3.cached.colorTestFunc = GEComparison.NEVER ∧
    drawSinglePixel false .F8888 blend0 idC3 0 0 0 0 ⟨1, 2, 3, 4⟩ stC3 = stC3 ∧
    (drawSinglePixel false .F8888 blend0
        { idC3 with cached := { idC3.cached with colorTestFunc := .ALWAYS } }
        0 0 0 0 ⟨1, 2, 3, 4⟩ stC3).fb 0 ≠ stC3.fb 0 :=
  ⟨rfl, rfl, rfl, rfl, by decide⟩

/-- Claim C3 amended: when the color test is enabled and not in clear
mode, the masked RGB (alpha excluded) is compared against the reference
under EQUAL and NOTEQUAL and the pixel is rejected on mismatch; under
NEVER the test always fails (so the pixel is always rejected); under
every other compare op the test always passes. -/
theorem colorTest_behavior (cm : Bool) (fmt : GEBufferFormat) (blend : BlendFn)
    (id : PixelFuncID) (x y : Nat) (z fog : Int) (prim : Vec4i) (st : DrawState) :
    (id.cached.colorTestFunc = GEComparison.NEVER →
      colorTestPassed id ⟨prim.r, prim.g, prim.b⟩ = false)
    ∧ (id.cached.colorTestFunc = GEComparison.EQUAL →
      (colorTestPassed id ⟨prim.r, prim.g, prim.b⟩ = true ↔
        vec3ToRGB ⟨prim.r, prim.g, prim.b⟩ &&& id.cached.colorTestMask =
          id.cached.colorTestRef))
    ∧ (id.cached.colorTestFunc = GEComparison.NOTEQUAL →
      (colorTestPassed id ⟨prim.r, prim.g, prim.b⟩ = true ↔
        vec3ToRGB ⟨prim.r, prim.g, prim.b⟩ &&& id.cached.colorTestMask ≠
          id.cached.colorTestRef))
    ∧ (id.cached.colorTestFunc ≠ GEComparison.NEVER →
      id.cached.colorTestFunc ≠ GEComparison.EQUAL →
      id.cached.colorTestFunc ≠ GEComparison.NOTEQUAL →
      colorTestPassed id ⟨prim.r, prim.g, prim.b⟩ = true)
    ∧ (id.colorTest = true → cm = false →
      colorTestPassed id ⟨prim.r, prim.g, prim.b⟩ = false →
      dspColorTestOn cm fmt blend id x y z fog prim st = st) := by
  refine ⟨?_, ?_, ?_, ?_, ?_⟩
  · intro h; simp [colorTestPassed, h]
  · intro h; simp [colorTestPassed, h]
  · intro h; simp [colorTestPassed, h]
  · intro h1 h2 h3
    cases h : id.cached.colorTestFunc <;> simp_all [colorTestPassed]
  · intro h1 h2 h3
    simp only [dspColorTestOn]
    rw [if_pos ⟨h1, by simp [h2], h3⟩]

/-- Witness for the amended C3 on the NEVER configuration: the test
fails and the stage rejects the pixel. -/
theorem colorTest_behavior_witness :
    (idC3.cached.colorTestFunc = GEComparison.NEVER →
      colorTestPassed idC3 ⟨1, 2, 3⟩ = false)
    ∧ dspColorTestOn false .F8888 blend0 idC3 0 0 0 0 ⟨1, 2, 3, 4⟩ stC3 = stC3 :=
  ⟨(colorTest_behavior false .F8888 blend0 idC3 0 0 0 0 ⟨1, 2, 3, 4⟩ stC3).1,
   (colorTest_behavior false .F8888 blend0 idC3 0 0 0 0 ⟨1, 2, 3, 4⟩ stC3).2.2.2.2
     rfl rfl (by decide)⟩

/-- SetPixelStencil never touches the depth buffer. -/
theorem setPixelStencil_depth (fmt : GEBufferFormat) (fbStride twm x y v : Nat)
    (st : DrawState) :
    (setPixelStencil fmt fbStride twm x y v st).depth = st.depth := by
  cases fmt <;> simp only [setPixelStencil, fbSet16, fbSet32] <;> split <;> rfl

/-- Claim C5: in non-clear mode with the stencil test enabled, whenever
the stencil test fails, the pipeline applies the configured stencil-fail
op to the stencil value, writes only the stencil bits back through
SetPixelStencil, and returns without writing depth or color: the result
is exactly SetPixelStencil of the stencil-fail op applied to the old
stencil, and the depth buffer is unchanged. -/
theorem stencilFail_writes_stencil_only (cm : Bool) (fmt : GEBufferFormat)
    (blend : BlendFn) (id : PixelFuncID) (x y : Nat) (z fog : Int) (prim : Vec4i)
    (st : DrawState) (hcm : cm = false) (hst : id.stencilTest = true)
    (hfail : stencilTestPassed id
      (getPixelStencil fmt id.cached.framebufStride x y st) = false) :
    dspStencilDepthWrite cm fmt blend id x y z fog prim st =
      setPixelStencil fmt id.cached.framebufStride
        (if id.applyColorWriteMask = true then id.cached.colorWriteMask else 0) x y
        (applyStencilOp fmt
          (if id.hasStencilTestMask = true then id.cached.stencilRef else id.stencilTestRef)
          id.sFail (getPixelStencil fmt id.cached.framebufStride x y st)) st
    ∧ (dspStencilDepthWrite cm fmt blend id x y z fog prim st).depth = st.depth := by
  subst hcm
  have hmain : dspStencilDepthWrite false fmt blend id x y z fog prim st =
      setPixelStencil fmt id.cached.framebufStride
        (if id.applyColorWriteMask = true then id.cached.colorWriteMask else 0) x y
        (applyStencilOp fmt
          (if id.hasStencilTestMask = true then id.cached.stencilRef else id.stencilTestRef)
          id.sFail (getPixelStencil fmt id.cached.framebufStride x y st)) st := by
    simp only [dspStencilDepthWrite]
    rw [if_neg (by simp), if_pos hst, if_pos (by simp [hfail])]
    simp
  exact ⟨hmain, by rw [hmain]; exact setPixelStencil_depth _ _ _ _ _ _ _⟩

/-- The concrete stencil-fail scenario of C5: format 8888, stencil test
enabled with compare EQUAL, reference 5, stencil-fail op REPLACE. -/
def idC5 : PixelFuncID :=
  { sampleId with
    stencilTest := true,
    stencilTestFunc := .EQUAL,
    stencilTestRef := 5,
    sFail := .REPLACE }

/-- A buffer state for C5 whose framebuffer pixel has stencil byte 3 and
RGB bytes 0x123456, and whose depth cells hold 7. -/
def stC5 : DrawState := ⟨fun _ => 51524694, fun _ => 7⟩

/-- Witness for C5: in the concrete 8888 instance with existing stencil
3, compare EQUAL against reference 5 fails, the stencil-fail op REPLACE
writes 5 into the high byte (pixel 0x05123456 = 85079126), the RGB bytes 0x123456 unchanged and
the depth cell keeps 7. -/
theorem stencilFail_writes_stencil_only_witness :
    (stencilTestPassed idC5
      (getPixelStencil .F8888 idC5.cached.framebufStride 0 0 stC5) = false)
    ∧ (dspStencilDepthWrite false .F8888 blend0 idC5 0 0 0 0 colorA stC5 =
        setPixelStencil .F8888 idC5.cached.framebufStride
          (if idC5.applyColorWriteMask = true then idC5.cached.colorWriteMask else 0) 0 0
          (applyStencilOp .F8888
            (if idC5.hasStencilTestMask = true then idC5.cached.stencilRef
              else idC5.stencilTestRef)
            idC5.sFail (getPixelStencil .F8888 idC5.cached.framebufStride 0 0 stC5)) stC5
      ∧ (dspStencilDepthWrite false .F8888 blend0 idC5 0 0 0 0 colorA stC5).depth = stC5.depth)
    ∧ (dspStencilDepthWrite false .F8888 blend0 idC5 0 0 0 0 colorA stC5).fb 0 = 85079126
    ∧ (dspStencilDepthWrite false .F8888 blend0 idC5 0 0 0 0 colorA stC5).depth 0 = 7 :=
  ⟨by decide,
   stencilFail_writes_stencil_only false .F8888 blend0 idC5 0 0 0 0 colorA stC5
     rfl rfl (by decide),
   by decide, by decide⟩

/-- A successful lookup returns a value stored in the list. -/
theorem cacheLookup_mem_snd {id : PixelFuncID} {l : List (PixelFuncID × Nat)} {v : Nat}
    (h : cacheLookup id l = some v) : v ∈ l.map Prod.snd := by
  induction l with
  | nil => simp [cacheLookup] at h
  | cons e rest ih =>
    obtain ⟨k, w⟩ := e
    simp only [cacheLookup] at h
    split at h
    · cases h
      simp
    · simp only [List.map_cons, List.mem_cons]
      exact Or.inr (ih h)

/-- In a map whose stored routine pointers are pairwise distinct, two
distinct keys can never look up the same pointer. -/
theorem pairwise_lookup_ne {l : List (PixelFuncID × Nat)} {id id2 : PixelFuncID}
    {p q : Nat} (hpw : List.Pairwise (fun a b => a.2 ≠ b.2) l) (hne : id ≠ id2)
    (hp : cacheLookup id l = some p) (hq : cacheLookup id2 l = some q) : p ≠ q := by
  induction l with
  | nil => simp [cacheLookup] at hp
  | cons e rest ih =>
    obtain ⟨k, w⟩ := e
    rw [List.pairwise_cons] at hpw
    simp only [cacheLookup] at hp hq
    by_cases hk : k = id
    · rw [if_pos hk] at hp
      injection hp with hp
      rw [if_neg (by rw [hk]; exact hne)] at hq
      subst hp
      intro heq
      obtain ⟨b, hb, hbq⟩ := List.mem_map.mp (cacheLookup_mem_snd hq)
      exact hpw.1 b hb (heq.trans hbq.symm)
    · rw [if_neg hk] at hp
      by_cases hk2 : k = id2
      · rw [if_pos hk2] at hq
        injection hq with hq
        subst hq
        intro heq
        obtain ⟨b, hb, hbp⟩ := List.mem_map.mp (cacheLookup_mem_snd hp)
        exact hpw.1 b hb (heq ▸ hbp).symm
      · rw [if_neg hk2] at hq
        exact ih hpw.2 hp hq

/-- Clearing the cache restores the invariant trivially. -/
theorem jitInv_clearJit (st : JitState) : JitInv (clearJit st) := by
  constructor <;> simp [clearJit]

/-- GetSingle preserves the cache invariant when every compiled routine
occupies at least one byte. -/
theorem jitInv_getSingle (en : Bool) (sz : PixelFuncID → Nat) (id : PixelFuncID)
    (st : JitState) (hsz : ∀ i, 0 < sz i) (hinv : JitInv st) :
    JitInv (getSingle en sz id st).2 := by
  rcases hl : cacheLookup id st.cache with _ | f
  · have hinv1 : JitInv (if st.spaceLeft < 65536 then clearJit st else st) := by
      split
      · exact jitInv_clearJit st
      · exact hinv
    cases en with
    | false => simpa [getSingle, hl] using hinv1
    | true =>
      simp only [getSingle, hl]
      rw [if_pos trivial]
      constructor
      · rw [List.pairwise_cons]
        refine ⟨fun b hb heq => ?_, hinv1.1⟩
        exact absurd (hinv1.2 b hb) (by rw [← heq]; omega)
      · intro e he
        rcases List.mem_cons.mp he with rfl | he'
        · have := hsz id
          simp
          omega
        · have h1 := hinv1.2 e he'
          have h2 := hsz id
          simp
          omega
  · simpa [getSingle, hl] using hinv

/-- Clearing preserves the compile log. -/
theorem compiles_if_clear (st : JitState) (c : Prop) [Decidable c] :
    (if c then clearJit st else st).compiles = st.compiles := by
  split <;> rfl

/-- Claim C6: two calls to GetSingle with structurally equal keys, with
no cache reset between them, return the same routine pointer and invoke
CompileSingle at most once for that key; and two structurally distinct
keys are never mapped to the same routine pointer (the invariant that
cached pointers are pairwise distinct is preserved). -/
theorem getSingle_idempotent (en : Bool) (sz : PixelFuncID → Nat)
    (hsz : ∀ i, 0 < sz i) (st : JitState) (hinv : JitInv st)
    (id id2 : PixelFuncID) (p q : Nat) :
    (getSingle en sz id st).1 = (getSingle en sz id (getSingle en sz id st).2).1
    ∧ countCompiles id (getSingle en sz id (getSingle en sz id st).2).2.compiles ≤
        countCompiles id st.compiles + 1
    ∧ JitInv (getSingle en sz id (getSingle en sz id st).2).2
    ∧ (id ≠ id2 →
        cacheLookup id (getSingle en sz id (getSingle en sz id st).2).2.cache = some p →
        cacheLookup id2 (getSingle en sz id (getSingle en sz id st).2).2.cache = some q →
        p ≠ q) := by
  have hinv2 : JitInv (getSingle en sz id (getSingle en sz id st).2).2 :=
    jitInv_getSingle en sz id _ hsz (jitInv_getSingle en sz id st hsz hinv)
  refine ⟨?_, ?_, hinv2, fun hne hp hq => pairwise_lookup_ne hinv2.1 hne hp hq⟩
  · rcases hl : cacheLookup id st.cache with _ | f
    · cases en with
      | false =>
        have hl1 : cacheLookup id (if st.spaceLeft < 65536 then clearJit st else st).cache
            = none := by
          split
          · rfl
          · exact hl
        simp [getSingle, hl, hl1]
      | true =>
        simp [getSingle, hl, cacheLookup]
    · simp [getSingle, hl]
  · rcases hl : cacheLookup id st.cache with _ | f
    · cases en with
      | false =>
        have hl1 : cacheLookup id (if st.spaceLeft < 65536 then clearJit st else st).cache
            = none := by
          split
          · rfl
          · exact hl
        simp [getSingle, hl, hl1, compiles_if_clear]
      | true =>
        simp [getSingle, hl, cacheLookup, countCompiles, compiles_if_clear]
        omega
    · simp [getSingle, hl]

/-- The initial empty jit cache state. -/
def jit0 : JitState :=
  { cache := [], addresses := [], cursor := 0, spaceLeft := bufferCapacity, compiles := [] }

/-- Witness for C6: two lookups of the same key from the empty state
return the same pointer with at most one compilation, and distinct keys
never share a pointer. -/
theorem getSingle_idempotent_witness :
    (getSingle true (fun _ => 100) sampleId jit0).1 =
      (getSingle true (fun _ => 100) sampleId
        (getSingle true (fun _ => 100) sampleId jit0).2).1
    ∧ countCompiles sampleId
        (getSingle true (fun _ => 100) sampleId
          (getSingle true (fun _ => 100) sampleId jit0).2).2.compiles ≤
        countCompiles sampleId jit0.compiles + 1
    ∧ JitInv (getSingle true (fun _ => 100) sampleId
        (getSingle true (fun _ => 100) sampleId jit0).2).2
    ∧ (sampleId ≠ idC3 →
        cacheLookup sampleId
          (getSingle true (fun _ => 100) sampleId
            (getSingle true (fun _ => 100) sampleId jit0).2).2.cache = some 0 →
        cacheLookup idC3
          (getSingle true (fun _ => 100) sampleId
            (getSingle true (fun _ => 100) sampleId jit0).2).2.cache = some 1 →
        (0 : Nat) ≠ 1) :=
  getSingle_idempotent true (fun _ => 100) (fun _ => Nat.zero_lt_succ 99) jit0 (by decide)
    sampleId idC3 0 1

/-- Claim C7: on a miss with fewer than 65536 bytes of code buffer left,
the whole state is reset before compiling: afterwards the routine map
and the address map hold exactly the entry compiled by this call at the
rewound buffer start (or nothing when the jit is disabled), so every
other key misses and no stale address attribution survives; and an
existing entry only ever disappears through such a full reset, never
through individual eviction. -/
theorem getSingle_reset_all (en : Bool) (sz : PixelFuncID → Nat) (st : JitState)
    (id k : PixelFuncID) (v : Nat) (hk : k ≠ id) :
    (cacheLookup id st.cache = none → st.spaceLeft < 65536 →
      ((getSingle en sz id st).2.cache = if en then [(id, 0)] else [])
      ∧ ((getSingle en sz id st).2.addresses = if en then [(id, 0)] else [])
      ∧ cacheLookup k (getSingle en sz id st).2.cache = none
      ∧ cacheLookup k (getSingle en sz id st).2.addresses = none)
    ∧ (cacheLookup k st.cache = some v →
      cacheLookup k (getSingle en sz id st).2.cache ≠ some v →
      (getSingle en sz id st).2.cache = if en then [(id, 0)] else []) := by
  constructor
  · intro hmiss hlow
    cases en <;>
      simp [getSingle, hmiss, hlow, clearJit, cacheLookup, Ne.symm hk]
  · intro hv hne
    rcases hmiss2 : cacheLookup id st.cache with _ | f
    · by_cases hlow : st.spaceLeft < 65536
      · cases en <;> simp [getSingle, hmiss2, hlow, clearJit]
      · exfalso
        apply hne
        cases en <;>
          simp [getSingle, hmiss2, hlow, cacheLookup, Ne.symm hk, hv]
    · exfalso
      apply hne
      simp [getSingle, hmiss2, hv]

/-- A nearly full cache state holding one entry for idC3, with less
space left than the safety threshold. -/
def jitLow : JitState :=
  { cache := [(idC3, 7)], addresses := [(idC3, 7)], cursor := 200000,
    spaceLeft := 100, compiles := [] }

/-- Witness for C7 on the nearly full state: a miss for a fresh key
resets everything, the old entry becomes a miss, and its disappearance
coincides with the full reset. -/
theorem getSingle_reset_all_witness :
    (cacheLookup sampleId jitLow.cache = none → jitLow.spaceLeft < 65536 →
      ((getSingle true (fun _ => 100) sampleId jitLow).2.cache =
        if true then [(sampleId, 0)] else [])
      ∧ ((getSingle true (fun _ => 100) sampleId jitLow).2.addresses =
        if true then [(sampleId, 0)] else [])
      ∧ cacheLookup idC3 (getSingle true (fun _ => 100) sampleId jitLow).2.cache = none
      ∧ cacheLookup idC3 (getSingle true (fun _ => 100) sampleId jitLow).2.addresses = none)
    ∧ (cacheLookup idC3 jitLow.cache = some 7 →
      cacheLookup idC3 (getSingle true (fun _ => 100) sampleId jitLow).2.cache ≠ some 7 →
      (getSingle true (fun _ => 100) sampleId jitLow).2.cache =
        if true then [(sampleId, 0)] else []) :=
  getSingle_reset_all true (fun _ => 100) jitLow sampleId idC3 7 (by decide)
